import Mathlib

/-!
# bomi / cmplayer: frame handoff between decoder and renderer

A shallow embedding of

* `src/cmplayer/videoframe.hpp`        (`VideoFrame`, its identity counter, `swap`, `newId`),
* `src/cmplayer/videorendereritem.cpp` (`getNextFrame`, `next`, `beforeUpdate`, `quit`,
  `fragmentShader`),
* `src/cmplayer/hwacc_vaapi.hpp`       (`VaApiStatusChecker`).

Conventions.

* `quint32` / `quint64` values are natural numbers; every increment is reduced
  modulo `2^32` / `2^64` explicitly.  `int` values are integers and `>>` is the
  arithmetic shift `Int.shiftRight`.
* A member function is a function from the object's data (plus the static
  counter `VideoFrame::UniqueId`) to the new data and the list of calls it
  makes on its collaborators (`Effect`), in program order.
* `QWaitCondition::wait` returns `true` when woken and `false` on timeout; that
  outcome is decided by the other thread, so it is an argument (`woken`).
-/

namespace Bomi

/-! ## Data model -/

/-- The pixel-format tags that the switch statements of `videorendereritem.cpp`
name.  `Other` stands for every tag those switches send to `default`. -/
inductive VideoFormatType where
  | I420 | YV12 | NV12 | NV21 | YUY2 | UYVY | RGBA | BGRA
  | Other (code : Nat)
  deriving DecidableEq, Repr

/-- Modelled from the spec: class `VideoFormat` (`videoformat.hpp`) is not among
the sources.  The spec describes it as a pure value type with structural
equality, holding the format tag, the frame width and height and the per-plane
byte width and height; `isEmpty()` "reports whether any frame has been
configured", which is kept as a field of its own so that nothing is assumed
about how it is computed. -/
structure VideoFormat where
  type : VideoFormatType
  width : Int
  height : Int
  byteWidths : List Int
  byteHeights : List Int
  empty : Bool
  deriving DecidableEq, Repr

/-- The call `format.isEmpty()`. -/
def VideoFormat.isEmpty (f : VideoFormat) : Bool := f.empty

/-- The call `format.byteWidth(i)`. -/
def VideoFormat.byteWidth (f : VideoFormat) (i : Nat) : Int := f.byteWidths.getD i 0

/-- The call `format.byteHeight(i)`. -/
def VideoFormat.byteHeight (f : VideoFormat) (i : Nat) : Int := f.byteHeights.getD i 0

/-- The call `format.size()`. -/
def VideoFormat.size (f : VideoFormat) : Int × Int := (f.width, f.height)

/-- Modelled from the spec: the default-constructed `VideoFormat()` of the absent
`videoformat.hpp`: no frame has been configured. -/
def VideoFormat.default : VideoFormat :=
  { type := VideoFormatType.Other 0, width := 0, height := 0,
    byteWidths := [], byteHeights := [], empty := true }

/-- A `QByteArray`: a sequence of bytes. -/
abbrev QByteArray := List Nat

/-- The shared payload `VideoFrame::Data`: format, the three planes `data[3]`
and the identity token `id`. -/
structure VideoFrame.Data where
  format : VideoFormat
  data0 : QByteArray
  data1 : QByteArray
  data2 : QByteArray
  id : Nat
  deriving DecidableEq, Repr

/-- A `VideoFrame`: the handle `d` (a `QSharedDataPointer<Data>`) to its payload.
The copy constructor and the assignment of `VideoFrame` are deleted, so a
payload is never shared between two frames and a write through `d->` never
works on a detached copy. -/
structure VideoFrame where
  d : VideoFrame.Data
  deriving DecidableEq, Repr

/-- The number of values of a `quint32`. -/
def quint32Mod : Nat := 4294967296

/-- The number of values of a `quint64`. -/
def quint64Mod : Nat := 18446744073709551616

/-- The expression `++UniqueId` on the static `quint32` counter: the new value
of the counter, which is also the value of the expression. -/
def preIncrement (UniqueId : Nat) : Nat := (UniqueId + 1) % quint32Mod

/-- The accessor `VideoFrame::id()`. -/
def VideoFrame.id (f : VideoFrame) : Nat := f.d.id

/-- The accessor `VideoFrame::format()`. -/
def VideoFrame.format (f : VideoFrame) : VideoFormat := f.d.format

/-- The accessor `VideoFrame::data(i)` for the planes `0`, `1`, `2`. -/
def VideoFrame.data (f : VideoFrame) (i : Nat) : QByteArray :=
  match i with
  | 0 => f.d.data0
  | 1 => f.d.data1
  | _ => f.d.data2

/-- The constructor `VideoFrame(): d(new Data)`: the member initialiser
`quint32 id = ++UniqueId` draws a token; format and planes are default
constructed.  Returns the new counter and the frame. -/
def VideoFrame.new (UniqueId : Nat) : Nat × VideoFrame :=
  (preIncrement UniqueId,
   { d := { format := VideoFormat.default, data0 := [], data1 := [], data2 := [],
            id := preIncrement UniqueId } })

/-- The member `void newId() {d->id = ++UniqueId;}`.  Returns the new counter
and the frame. -/
def VideoFrame.newId (UniqueId : Nat) (f : VideoFrame) : Nat × VideoFrame :=
  (preIncrement UniqueId, { d := { f.d with id := preIncrement UniqueId } })

/-- The member `void swap(VideoFrame &other) {d.swap(other.d);}`: the two
handles exchange their payloads.  Returns the new `*this` and the new `other`. -/
def VideoFrame.swap (self other : VideoFrame) : VideoFrame × VideoFrame :=
  ({ d := other.d }, { d := self.d })

/-- The upload formats passed to `glTexSubImage2D`. -/
inductive GLenum where
  | GL_LUMINANCE | GL_LUMINANCE_ALPHA | GL_RGBA | GL_BGRA
  deriving DecidableEq, Repr

/-- The calls a member function makes on its collaborators. -/
inductive Effect where
  /-- The call `d->mposd->beginNewFrame()`. -/
  | beginNewFrame
  /-- The call `d->mposd->endNewFrame()`. -/
  | endNewFrame
  /-- The call `update()`, which schedules a redraw of the scene. -/
  | update
  /-- The call `d->mutex.lock()`. -/
  | lock
  /-- The call `d->mutex.unlock()`. -/
  | unlock
  /-- The call `d->wait.wait(&d->mutex, msec)`. -/
  | wait (msec : Nat)
  /-- The output `qDebug() << "maybe a frame dropped?"`. -/
  | qDebugDropped
  /-- The call `d->wait.wakeAll()`. -/
  | wakeAll
  /-- The call `d->mposd->setFrameSize(size)`. -/
  | setFrameSize (size : Int × Int)
  /-- The call `resetNode()`. -/
  | resetNode
  /-- The call `updateGeometry()`. -/
  | updateGeometry
  /-- The signal `emit formatChanged(format)`. -/
  | formatChanged (format : VideoFormat)
  /-- The lambda `setTex(idx, fmt, width, height, data)` of `beforeUpdate`:
  bind texture `idx` and upload `data` with `glTexSubImage2D`. -/
  | setTex (idx : Nat) (fmt : GLenum) (width height : Int) (data : QByteArray)
  /-- The call `setOverlay(nullptr)`. -/
  | setOverlayNull
  deriving DecidableEq, Repr

/-- The members of `VideoRendererItem::Data` that the frame handoff reads or
writes, together with the static counter `VideoFrame::UniqueId`.  The geometry
members (`vtx`, `offset`, `crop`, `aspect`, `dar`, `alignment`), the shader
text and its uniform locations take no part in the handoff. -/
structure State where
  UniqueId : Nat
  frame : VideoFrame
  next : VideoFrame
  frameChanged : Bool
  quit : Bool
  format : VideoFormat
  drawnFrames : Nat
  shaderType : VideoFormatType
  frameId : Nat
  deriving DecidableEq, Repr

/-- The state after `d(new Data)` in the constructor of `VideoRendererItem`,
when the static counter stood at `UniqueId` before: the members `frame` and
`next` are constructed in this order, `frameChanged = false`, `quit = false`,
`drawnFrames = 0`, `shaderType = VideoFormat::BGRA` and
`quint64 frameId = -1`. -/
def State.initial (UniqueId : Nat) : State :=
  { UniqueId := (VideoFrame.new (VideoFrame.new UniqueId).1).1,
    frame := (VideoFrame.new UniqueId).2,
    next := (VideoFrame.new (VideoFrame.new UniqueId).1).2,
    frameChanged := false,
    quit := false,
    format := VideoFormat.default,
    drawnFrames := 0,
    shaderType := VideoFormatType.BGRA,
    frameId := quint64Mod - 1 }

/-! ## The producer side -/

/-- The member `VideoRendererItem::getNextFrame()`:
`d->mposd->beginNewFrame(); d->next.newId(); return d->next;`. -/
def getNextFrame (s : State) : State × List Effect :=
  ({ s with UniqueId := (VideoFrame.newId s.UniqueId s.next).1,
            next := (VideoFrame.newId s.UniqueId s.next).2 },
   [Effect.beginNewFrame])

/-- The wait at the end of `VideoRendererItem::next()`, evaluated on the state
after the swap:
`if (!d->quit && d->frame.id() != d->frameId) { if (!d->wait.wait(&d->mutex, 10000u)) qDebug() << ...; }`. -/
def nextWait (woken : Bool) (s : State) : List Effect :=
  if s.quit = false ∧ s.frame.id ≠ s.frameId then
    if woken = false then [Effect.wait 10000, Effect.qDebugDropped] else [Effect.wait 10000]
  else []

/-- The member `VideoRendererItem::next()`. -/
def next (woken : Bool) (s : State) : State × List Effect :=
  if s.frameChanged = false then
    let s1 : State :=
      { s with frameChanged := true,
               frame := (VideoFrame.swap s.frame s.next).1,
               next := (VideoFrame.swap s.frame s.next).2 }
    (s1, [Effect.lock, Effect.endNewFrame, Effect.update] ++ nextWait woken s1 ++ [Effect.unlock])
  else (s, [])

/-- The member `VideoRendererItem::quit()`. -/
def quit (s : State) : State × List Effect :=
  ({ s with quit := true }, [Effect.wakeAll, Effect.setOverlayNull])

/-! ## The consumer side -/

/-- The switch over `d->format.type()` in `beforeUpdate`, with
`w = d->format.byteWidth(0)` and `h = d->format.byteHeight(0)`. -/
def uploadPlanes (format : VideoFormat) (frame : VideoFrame) : List Effect :=
  let w := format.byteWidth 0
  let h := format.byteHeight 0
  match format.type with
  | VideoFormatType.I420 | VideoFormatType.YV12 =>
    [Effect.setTex 0 GLenum.GL_LUMINANCE w h (frame.data 0),
     Effect.setTex 1 GLenum.GL_LUMINANCE (Int.shiftRight w 1) (Int.shiftRight h 1) (frame.data 1),
     Effect.setTex 2 GLenum.GL_LUMINANCE (Int.shiftRight w 1) (Int.shiftRight h 1) (frame.data 2)]
  | VideoFormatType.NV12 | VideoFormatType.NV21 =>
    [Effect.setTex 0 GLenum.GL_LUMINANCE w h (frame.data 0),
     Effect.setTex 1 GLenum.GL_LUMINANCE_ALPHA (Int.shiftRight w 1) (Int.shiftRight h 1) (frame.data 1)]
  | VideoFormatType.YUY2 | VideoFormatType.UYVY =>
    [Effect.setTex 0 GLenum.GL_LUMINANCE_ALPHA (Int.shiftRight w 1) h (frame.data 0),
     Effect.setTex 1 GLenum.GL_BGRA (Int.shiftRight w 2) h (frame.data 0)]
  | VideoFormatType.RGBA =>
    [Effect.setTex 0 GLenum.GL_RGBA (Int.shiftRight w 2) h (frame.data 0)]
  | VideoFormatType.BGRA =>
    [Effect.setTex 0 GLenum.GL_BGRA (Int.shiftRight w 2) h (frame.data 0)]
  | VideoFormatType.Other _ => []

/-- The value of `d->format` after the block
`if (d->format != d->frame.format()) { d->format = d->frame.format(); ... }`. -/
def formatAfter (s : State) : VideoFormat :=
  if s.format ≠ s.frame.format then s.frame.format else s.format

/-- The member `VideoRendererItem::beforeUpdate()`. -/
def beforeUpdate (s : State) : State × List Effect :=
  if s.frame.id = s.frameId then (s, [])
  else
    let format := formatAfter s
    let fxFormat : List Effect :=
      if s.format ≠ s.frame.format then
        [Effect.setFrameSize format.size, Effect.resetNode, Effect.updateGeometry,
         Effect.formatChanged format]
      else []
    let fxShader : List Effect :=
      if s.shaderType ≠ format.type then [Effect.resetNode] else []
    let fxUpload : List Effect :=
      if format.isEmpty = false then uploadPlanes format s.frame else []
    let drawnFrames : Nat :=
      if format.isEmpty = false then (s.drawnFrames + 1) % quint64Mod else s.drawnFrames
    ({ s with format := format, drawnFrames := drawnFrames, frameChanged := false,
              frameId := s.frame.id },
     [Effect.lock] ++ fxFormat ++ fxShader ++ fxUpload ++ [Effect.wakeAll, Effect.unlock])

/-- The texture uploads among a list of calls, in order. -/
def texUploads (fx : List Effect) : List Effect :=
  fx.filter (fun e => match e with
    | Effect.setTex _ _ _ _ _ => true
    | _ => false)

/-- The `resetNode()` requests among a list of calls. -/
def resetRequests (fx : List Effect) : List Effect :=
  fx.filter (fun e => match e with
    | Effect.resetNode => true
    | _ => false)

/-- The waits on the condition variable among a list of calls. -/
def waits (fx : List Effect) : List Effect :=
  fx.filter (fun e => match e with
    | Effect.wait _ => true
    | _ => false)

/-! ## Sequences of calls -/

/-- A call on the renderer from one of its two threads: the decoder calls
`getNextFrame()` and `next()`, the render thread calls `beforeUpdate()`. -/
inductive Event where
  | getNextFrame
  | next (woken : Bool)
  | beforeUpdate
  deriving DecidableEq, Repr

/-- The effect of one call on the state. -/
def Event.run : Event → State → State × List Effect
  | Event.getNextFrame, s => Bomi.getNextFrame s
  | Event.next woken, s => Bomi.next woken s
  | Event.beforeUpdate, s => Bomi.beforeUpdate s

/-- The state after a sequence of calls. -/
def runEvents : List Event → State → State
  | [], s => s
  | e :: es, s => runEvents es (e.run s).1

/-- The identity token that `beforeUpdate()` treats as a changed frame in state
`s`: when the call takes its non-no-op path (it locks the mutex), the token it
acknowledges; nothing when it returns at once. -/
def changedId (s : State) : List Nat :=
  if Effect.lock ∈ (beforeUpdate s).2 then [(beforeUpdate s).1.frameId] else []

/-- The identity tokens treated as changed frames by the redraws of a sequence
of calls started in state `s`, in order. -/
def changedIds : List Event → State → List Nat
  | [], _ => []
  | Event.beforeUpdate :: es, s => changedId s ++ changedIds es (beforeUpdate s).1
  | e :: es, s => changedIds es (e.run s).1

/-- The producer protocol on a sequence of calls: every `next()` comes after a
`getNextFrame()` that no other `next()` has used; redraws may fall anywhere.
`fresh` tells whether such a `getNextFrame()` has already happened. -/
def followsProtocol : Bool → List Event → Bool
  | _, [] => true
  | _, Event.getNextFrame :: es => followsProtocol true es
  | fresh, Event.next _ :: es => fresh && followsProtocol false es
  | fresh, Event.beforeUpdate :: es => followsProtocol fresh es

/-- The number of `getNextFrame()` calls in a sequence: the number of identity
tokens it draws. -/
def countGetNextFrame : List Event → Nat
  | [] => 0
  | Event.getNextFrame :: es => countGetNextFrame es + 1
  | _ :: es => countGetNextFrame es

/-- One publish followed by one redraw: `getNextFrame(); next(); beforeUpdate()`. -/
def publishAndRedraw : List Event :=
  [Event.getNextFrame, Event.next true, Event.beforeUpdate]

/-- The sequence `publishAndRedraw` repeated `n` times. -/
def cycles : Nat → List Event
  | 0 => []
  | n + 1 => publishAndRedraw ++ cycles n

/-- The number of increments of the 32-bit counter that lead from the token `x`
to the token `y`. -/
def idDistance (x y : Nat) : Nat := (y + quint32Mod - x) % quint32Mod

/-- An operation of the program that draws an identity token: constructing a
`VideoFrame`, or calling `newId()` on the `i`-th frame constructed so far. -/
inductive FrameOp where
  | construct
  | newId (i : Nat)
  deriving DecidableEq, Repr

/-- The static counter `VideoFrame::UniqueId` and the frames constructed so far. -/
structure Frames where
  UniqueId : Nat
  frames : List VideoFrame
  deriving DecidableEq, Repr

/-- One operation: the state afterwards and the identity token it issued (none for
a `newId()` on a frame that does not exist). -/
def FrameOp.run : FrameOp → Frames → Frames × List Nat
  | FrameOp.construct, p =>
    ({ UniqueId := (VideoFrame.new p.UniqueId).1,
       frames := p.frames ++ [(VideoFrame.new p.UniqueId).2] },
     [(VideoFrame.new p.UniqueId).2.id])
  | FrameOp.newId i, p =>
    match p.frames[i]? with
    | some f =>
      ({ UniqueId := (VideoFrame.newId p.UniqueId f).1,
         frames := p.frames.set i (VideoFrame.newId p.UniqueId f).2 },
       [(VideoFrame.newId p.UniqueId f).2.id])
    | none => (p, [])

/-- The identity tokens issued by a sequence of operations, in order. -/
def issuedTokens : List FrameOp → Frames → List Nat
  | [], _ => []
  | op :: ops, p => (op.run p).2 ++ issuedTokens ops (op.run p).1

/-! ## Teardown and shader selection -/

/-- The member `VideoRendererItem::fragmentShader()`:
`d->shaderType = d->format.type(); d->shader = shader(d->shaderType);`.
It records the tag the shader is built for; the shader text itself is not
part of the state kept here. -/
def fragmentShader (s : State) : State :=
  { s with shaderType := s.format.type }

/-- A call on the renderer, teardown included: the calls of `Event` and
`quit()`. -/
inductive Call where
  | getNextFrame
  | next (woken : Bool)
  | beforeUpdate
  | quit
  deriving DecidableEq, Repr

/-- The effect of one call on the state. -/
def Call.run : Call → State → State × List Effect
  | Call.getNextFrame, s => Bomi.getNextFrame s
  | Call.next woken, s => Bomi.next woken s
  | Call.beforeUpdate, s => Bomi.beforeUpdate s
  | Call.quit, s => Bomi.quit s

/-- The state after a sequence of calls. -/
def runCalls : List Call → State → State
  | [], s => s
  | c :: cs, s => runCalls cs (c.run s).1

/-- All the calls on collaborators made by a sequence of calls, in order. -/
def traceCalls : List Call → State → List Effect
  | [], _ => []
  | c :: cs, s => (c.run s).2 ++ traceCalls cs (c.run s).1

/-! ## hwacc_vaapi.hpp: the status checker -/

/-- The type `VAStatus` of `va/va.h`, an `int`. -/
abbrev VAStatus := Int

/-- The constant `VA_STATUS_SUCCESS` of `va/va.h`. -/
def VA_STATUS_SUCCESS : VAStatus := 0

/-- The data of `struct VaApiStatusChecker`: `VAStatus m_status = VA_STATUS_SUCCESS`. -/
structure VaApiStatusChecker where
  m_status : VAStatus
  deriving DecidableEq, Repr

/-- The default-constructed checker. -/
def VaApiStatusChecker.new : VaApiStatusChecker := { m_status := VA_STATUS_SUCCESS }

/-- The conversion of an `int` argument to a `bool` parameter: zero is `false`,
every other value is `true`. -/
def intToBool (v : Int) : Bool := decide (v ≠ 0)

/-- The conversion of a `bool` to an `int`: `false` is 0 and `true` is 1. -/
def boolToInt (b : Bool) : Int := if b = true then 1 else 0

/-- The member
`bool isSuccess(bool status) { return (m_status = status) == VA_STATUS_SUCCESS; }`:
the parameter is a `bool`, so the assignment stores its conversion to
`VAStatus`.  Returns the result and the checker afterwards. -/
def VaApiStatusChecker.isSuccess (c : VaApiStatusChecker) (status : Bool) :
    Bool × VaApiStatusChecker :=
  let c1 : VaApiStatusChecker := { c with m_status := boolToInt status }
  (decide (c1.m_status = VA_STATUS_SUCCESS), c1)

/-- The call `isSuccess(s)` with a driver status code `s : VAStatus`, as in
`isSuccess(vaCreateSurfaces(...))`: the argument is converted to the `bool`
parameter first. -/
def VaApiStatusChecker.isSuccessOf (c : VaApiStatusChecker) (s : VAStatus) :
    Bool × VaApiStatusChecker :=
  c.isSuccess (intToBool s)

/-- The member `VAStatus status() const { return m_status; }`. -/
def VaApiStatusChecker.status (c : VaApiStatusChecker) : VAStatus := c.m_status

/-! ## Concrete instances -/

/-- A frame with the given identity token, format tag and plane-0 geometry, used in the concrete
instances of the theorems. -/
def sampleFrame (id : Nat) (type : VideoFormatType) (w h : Int) (d0 d1 d2 : QByteArray) :
    VideoFrame :=
  { d := { format := { type := type, width := w, height := h, byteWidths := [w],
                       byteHeights := [h], empty := false },
           data0 := d0, data1 := d1, data2 := d2, id := id } }

/-- A renderer state that has drawn frame `5`, whose front slot still holds it,
with the decoder's frame `7` (planar 640x480) waiting in the next slot. -/
def sampleIdle : State :=
  { UniqueId := 7,
    frame := sampleFrame 5 VideoFormatType.I420 640 480 [1] [2] [3],
    next := sampleFrame 7 VideoFormatType.I420 640 480 [4] [5] [6],
    frameChanged := false, quit := false,
    format := (sampleFrame 5 VideoFormatType.I420 640 480 [] [] []).format,
    drawnFrames := 1, shaderType := VideoFormatType.I420, frameId := 5 }

/-- A renderer state whose front slot holds a new packed-YUV (YUY2) frame with
id 9, 1280 bytes by 480 rows in plane 0, not yet drawn. -/
def samplePacked : State :=
  { UniqueId := 9,
    frame := sampleFrame 9 VideoFormatType.YUY2 1280 480 [1] [] [],
    next := sampleFrame 5 VideoFormatType.I420 640 480 [4] [5] [6],
    frameChanged := true, quit := false,
    format := (sampleFrame 5 VideoFormatType.I420 640 480 [] [] []).format,
    drawnFrames := 1, shaderType := VideoFormatType.I420, frameId := 5 }

/-- A renderer state set up for planar I420 at 640x480 (stored format and
shader), whose front slot holds a new semi-planar NV12 frame with id 9 of the
same dimensions, not yet drawn. -/
def sampleRetagged : State :=
  { UniqueId := 9,
    frame := sampleFrame 9 VideoFormatType.NV12 640 480 [1] [2] [],
    next := sampleFrame 5 VideoFormatType.I420 640 480 [4] [5] [6],
    frameChanged := true, quit := false,
    format := (sampleFrame 5 VideoFormatType.I420 640 480 [] [] []).format,
    drawnFrames := 1, shaderType := VideoFormatType.I420, frameId := 5 }

/-! ## Theorems -/

/-- C1. When a publish is already pending (`frameChanged` is true), `next()`
changes nothing: the whole state (front frame, next frame with its content and
identity token, `frameChanged`, the last-acknowledged id, the quit flag) is the
state before, and it makes no call at all, in particular no wait. -/
theorem next_pending_noop (woken : Bool) (s : State) (h : s.frameChanged = true) :
    next woken s = (s, []) ∧ waits (next woken s).2 = [] := by
  simp [next, h, waits]

/-- Witness of C1: a pending state whose two slots differ. -/
theorem next_pending_noop_witness :
    ({ State.initial 0 with frameChanged := true } : State).frameChanged = true ∧
    (next true { State.initial 0 with frameChanged := true }
        = ({ State.initial 0 with frameChanged := true }, []) ∧
      waits (next true { State.initial 0 with frameChanged := true }).2 = []) :=
  ⟨rfl, next_pending_noop true { State.initial 0 with frameChanged := true } rfl⟩

/-- C2. When no publish is pending (`frameChanged` is false), after `next()`
`frameChanged` is true, the front slot holds exactly what the next slot held
(format, planes, identity token), the next slot holds exactly what the front
slot held, and the last-acknowledged id is the one before the call. -/
theorem next_idle_swaps (woken : Bool) (s : State) (h : s.frameChanged = false) :
    (next woken s).1.frameChanged = true ∧
    (next woken s).1.frame = s.next ∧
    (next woken s).1.next = s.frame ∧
    (next woken s).1.frame.format = s.next.format ∧
    (∀ i, (next woken s).1.frame.data i = s.next.data i) ∧
    (next woken s).1.frame.id = s.next.id ∧
    (next woken s).1.frameId = s.frameId := by
  simp [next, h, VideoFrame.swap]

/-- Witness of C2 on `sampleIdle`. -/
theorem next_idle_swaps_witness :
    sampleIdle.frameChanged = false ∧
    (next true sampleIdle).1.frameChanged = true ∧
    (next true sampleIdle).1.frame = sampleIdle.next ∧
    (next true sampleIdle).1.next = sampleIdle.frame ∧
    (next true sampleIdle).1.frameId = 5 :=
  ⟨rfl, (next_idle_swaps true sampleIdle rfl).1, (next_idle_swaps true sampleIdle rfl).2.1,
   (next_idle_swaps true sampleIdle rfl).2.2.1, (next_idle_swaps true sampleIdle rfl).2.2.2.2.2.2⟩

/-- C3. When the front frame's identity token equals the last-acknowledged id,
`beforeUpdate()` changes nothing and makes no call: no texture upload, no
`resetNode()`, and the stored format, `frameChanged`, the last-acknowledged id,
the drawn-frame counter and both slots are as before. -/
theorem beforeUpdate_same_id_noop (s : State) (h : s.frame.id = s.frameId) :
    beforeUpdate s = (s, []) ∧
    texUploads (beforeUpdate s).2 = [] ∧
    resetRequests (beforeUpdate s).2 = [] := by
  simp [beforeUpdate, h, texUploads, resetRequests]

/-- Witness of C3 on `sampleIdle` (front id 5, last-acknowledged id 5). -/
theorem beforeUpdate_same_id_noop_witness :
    sampleIdle.frame.id = sampleIdle.frameId ∧
    beforeUpdate sampleIdle = (sampleIdle, []) :=
  ⟨rfl, (beforeUpdate_same_id_noop sampleIdle rfl).1⟩

/-- C4. When the front frame's identity token differs from the
last-acknowledged id, after `beforeUpdate()` `frameChanged` is false, the
last-acknowledged id equals the front frame's identity token, and the front and
next slots are unchanged. -/
theorem beforeUpdate_new_id_acks (s : State) (h : s.frame.id ≠ s.frameId) :
    (beforeUpdate s).1.frameChanged = false ∧
    (beforeUpdate s).1.frameId = s.frame.id ∧
    (beforeUpdate s).1.frame = s.frame ∧
    (beforeUpdate s).1.next = s.next := by
  simp [beforeUpdate, h]

/-- Witness of C4: the frame published from `sampleIdle` has id 7, and the
redraw leaves the last-acknowledged id at 7. -/
theorem beforeUpdate_new_id_acks_witness :
    (next true sampleIdle).1.frame.id ≠ (next true sampleIdle).1.frameId ∧
    (beforeUpdate (next true sampleIdle).1).1.frameChanged = false ∧
    (beforeUpdate (next true sampleIdle).1).1.frameId = 7 :=
  ⟨by decide,
   (beforeUpdate_new_id_acks (next true sampleIdle).1 (by decide)).1,
   (beforeUpdate_new_id_acks (next true sampleIdle).1 (by decide)).2.1⟩

/-- C10. `VideoFrame::swap` exchanges the two frames exactly (identity token,
format and planes), and performing it twice restores both. -/
theorem swap_involutive (a b : VideoFrame) :
    (VideoFrame.swap a b).1 = b ∧ (VideoFrame.swap a b).2 = a ∧
    (VideoFrame.swap a b).1.id = b.id ∧ (VideoFrame.swap a b).2.id = a.id ∧
    (VideoFrame.swap a b).1.format = b.format ∧ (VideoFrame.swap a b).2.format = a.format ∧
    (∀ i, (VideoFrame.swap a b).1.data i = b.data i) ∧
    (∀ i, (VideoFrame.swap a b).2.data i = a.data i) ∧
    VideoFrame.swap (VideoFrame.swap a b).1 (VideoFrame.swap a b).2 = (a, b) := by
  simp [VideoFrame.swap]

/-- After the format check of `beforeUpdate`, the stored format is the front
frame's format. -/
theorem formatAfter_eq (s : State) : formatAfter s = s.frame.format := by
  unfold formatAfter
  split
  · rfl
  · rename_i h
    exact not_not.mp h

/-- The uploads of a redraw of a new frame are those of `uploadPlanes` on the
front frame's format, when that format is not empty. -/
theorem texUploads_beforeUpdate (s : State) (hid : s.frame.id ≠ s.frameId)
    (hne : s.frame.format.isEmpty = false) :
    texUploads (beforeUpdate s).2 = uploadPlanes s.frame.format s.frame := by
  have hup : texUploads (uploadPlanes s.frame.format s.frame)
      = uploadPlanes s.frame.format s.frame := by
    unfold uploadPlanes texUploads
    split <;> simp
  simp only [beforeUpdate, hid, if_false, formatAfter_eq, hne, if_true]
  unfold texUploads at hup ⊢
  rw [List.filter_append, List.filter_append, List.filter_append, List.filter_append, hup]
  by_cases h1 : s.format ≠ s.frame.format <;> by_cases h2 : s.shaderType ≠ s.frame.format.type <;>
    simp [h1, h2]

/-- Halving by right shift is the floor of the division by two. -/
theorem shiftRight_one_eq (w : Int) : Int.shiftRight w 1 = w / 2 := by
  have h := Int.shiftRight_eq_div_pow w 1
  simpa using h

/-- Shifting right by two is the floor of the division by four. -/
theorem shiftRight_two_eq (w : Int) : Int.shiftRight w 2 = w / 4 := by
  have h := Int.shiftRight_eq_div_pow w 2
  simpa using h

/-- C6. For a non-empty planar-YUV front format (I420 or YV12) with plane-0 byte
width `w` and byte height `h`, a redraw of a new frame uploads exactly three
textures, all luminance: unit 0 at `w x h` from plane 0, unit 1 and unit 2 at
`(w >> 1) x (h >> 1)` from planes 1 and 2, where the shift is the halving
`w / 2`, `h / 2`. -/
theorem beforeUpdate_planar_uploads (s : State) (w h : Int)
    (hid : s.frame.id ≠ s.frameId)
    (hty : s.frame.format.type = VideoFormatType.I420 ∨
           s.frame.format.type = VideoFormatType.YV12)
    (hne : s.frame.format.isEmpty = false)
    (hw : s.frame.format.byteWidth 0 = w) (hh : s.frame.format.byteHeight 0 = h) :
    texUploads (beforeUpdate s).2 =
      [Effect.setTex 0 GLenum.GL_LUMINANCE w h (s.frame.data 0),
       Effect.setTex 1 GLenum.GL_LUMINANCE (w / 2) (h / 2) (s.frame.data 1),
       Effect.setTex 2 GLenum.GL_LUMINANCE (w / 2) (h / 2) (s.frame.data 2)] ∧
    Int.shiftRight w 1 = w / 2 ∧ Int.shiftRight h 1 = h / 2 := by
  refine ⟨?_, shiftRight_one_eq w, shiftRight_one_eq h⟩
  rw [texUploads_beforeUpdate s hid hne, ← shiftRight_one_eq w, ← shiftRight_one_eq h]
  unfold uploadPlanes
  rcases hty with hty | hty <;> simp [hty, hw, hh]

/-- Witness of C6: the frame with id 7, planar 640x480, published from
`sampleIdle` is uploaded as three luminance textures of sizes 640x480, 320x240
and 320x240. -/
theorem beforeUpdate_planar_uploads_witness :
    (next true sampleIdle).1.frame.id ≠ (next true sampleIdle).1.frameId ∧
    texUploads (beforeUpdate (next true sampleIdle).1).2 =
      [Effect.setTex 0 GLenum.GL_LUMINANCE 640 480 [4],
       Effect.setTex 1 GLenum.GL_LUMINANCE 320 240 [5],
       Effect.setTex 2 GLenum.GL_LUMINANCE 320 240 [6]] :=
  ⟨by decide,
   (beforeUpdate_planar_uploads (next true sampleIdle).1 640 480 (by decide)
      (Or.inl rfl) rfl rfl rfl).1⟩

/-- C7. For a non-empty front format with plane-0 byte width `w` and byte height
`h`, the ordered uploads of a redraw of a new frame are fixed by the format tag:
semi-planar (NV12, NV21) gives two textures (unit 0 luminance `w x h` from
plane 0, unit 1 luminance-alpha `(w/2) x (h/2)` from plane 1); packed YUV (YUY2,
UYVY) gives two textures (unit 0 luminance-alpha `(w/2) x h`, unit 1 BGRA
`(w/4) x h`, both from plane 0); RGBA and BGRA give one texture `(w/4) x h` from
plane 0; any other tag gives no upload, and the redraw still completes and
acknowledges the frame.  The divisions are the right shifts of the code. -/
theorem beforeUpdate_uploads_by_tag (s : State) (w h : Int)
    (hid : s.frame.id ≠ s.frameId)
    (hne : s.frame.format.isEmpty = false)
    (hw : s.frame.format.byteWidth 0 = w) (hh : s.frame.format.byteHeight 0 = h) :
    (s.frame.format.type = VideoFormatType.NV12 ∨ s.frame.format.type = VideoFormatType.NV21 →
      texUploads (beforeUpdate s).2 =
        [Effect.setTex 0 GLenum.GL_LUMINANCE w h (s.frame.data 0),
         Effect.setTex 1 GLenum.GL_LUMINANCE_ALPHA (w / 2) (h / 2) (s.frame.data 1)]) ∧
    (s.frame.format.type = VideoFormatType.YUY2 ∨ s.frame.format.type = VideoFormatType.UYVY →
      texUploads (beforeUpdate s).2 =
        [Effect.setTex 0 GLenum.GL_LUMINANCE_ALPHA (w / 2) h (s.frame.data 0),
         Effect.setTex 1 GLenum.GL_BGRA (w / 4) h (s.frame.data 0)]) ∧
    (s.frame.format.type = VideoFormatType.RGBA →
      texUploads (beforeUpdate s).2 =
        [Effect.setTex 0 GLenum.GL_RGBA (w / 4) h (s.frame.data 0)]) ∧
    (s.frame.format.type = VideoFormatType.BGRA →
      texUploads (beforeUpdate s).2 =
        [Effect.setTex 0 GLenum.GL_BGRA (w / 4) h (s.frame.data 0)]) ∧
    (∀ code, s.frame.format.type = VideoFormatType.Other code →
      texUploads (beforeUpdate s).2 = [] ∧
      (beforeUpdate s).1.frameId = s.frame.id ∧ (beforeUpdate s).1.frameChanged = false) ∧
    Int.shiftRight w 1 = w / 2 ∧ Int.shiftRight h 1 = h / 2 ∧ Int.shiftRight w 2 = w / 4 := by
  refine ⟨?_, ?_, ?_, ?_, ?_, shiftRight_one_eq w, shiftRight_one_eq h, shiftRight_two_eq w⟩
  · intro hty
    rw [texUploads_beforeUpdate s hid hne, ← shiftRight_one_eq w, ← shiftRight_one_eq h]
    unfold uploadPlanes
    rcases hty with hty | hty <;> simp [hty, hw, hh]
  · intro hty
    rw [texUploads_beforeUpdate s hid hne, ← shiftRight_one_eq w, ← shiftRight_two_eq w]
    unfold uploadPlanes
    rcases hty with hty | hty <;> simp [hty, hw, hh]
  · intro hty
    rw [texUploads_beforeUpdate s hid hne, ← shiftRight_two_eq w]
    unfold uploadPlanes
    simp [hty, hw, hh]
  · intro hty
    rw [texUploads_beforeUpdate s hid hne, ← shiftRight_two_eq w]
    unfold uploadPlanes
    simp [hty, hw, hh]
  · intro code hty
    refine ⟨?_, ?_, ?_⟩
    · rw [texUploads_beforeUpdate s hid hne]
      unfold uploadPlanes
      simp [hty]
    · simp [beforeUpdate, hid]
    · simp [beforeUpdate, hid]

/-- Witness of C7: the packed-YUV frame of `samplePacked` (1280 bytes by 480
rows) is uploaded as a 640x480 luminance-alpha texture and a 320x480 BGRA
texture, both from plane 0. -/
theorem beforeUpdate_uploads_by_tag_witness :
    samplePacked.frame.id ≠ samplePacked.frameId ∧
    samplePacked.frame.format.isEmpty = false ∧
    texUploads (beforeUpdate samplePacked).2 =
      [Effect.setTex 0 GLenum.GL_LUMINANCE_ALPHA 640 480 [1],
       Effect.setTex 1 GLenum.GL_BGRA 320 480 [1]] :=
  ⟨by decide, rfl,
   (beforeUpdate_uploads_by_tag samplePacked 1280 480 (by decide) rfl rfl rfl).2.1
      (Or.inl rfl)⟩

/-- What `isSuccess(s)` stores for a driver status code `s`: 0 when `s` is
`VA_STATUS_SUCCESS` and 1 otherwise; the returned flag is still `s == 0`. -/
theorem isSuccessOf_status (c : VaApiStatusChecker) (s : VAStatus) :
    (c.isSuccessOf s).2.status = (if s = 0 then 0 else 1) ∧
    (c.isSuccessOf s).1 = decide (s = VA_STATUS_SUCCESS) := by
  by_cases h : s = 0 <;>
    simp [VaApiStatusChecker.isSuccessOf, VaApiStatusChecker.isSuccess,
      VaApiStatusChecker.status, intToBool, boolToInt, VA_STATUS_SUCCESS, h]

/-- C9 on the code: after `isSuccess(2)` (2 is `VA_STATUS_ERROR_ALLOCATION_FAILED`)
on a fresh checker, `status()` returns 1, not the driver's code 2. -/
theorem isSuccessOf_allocation_failed :
    (VaApiStatusChecker.new.isSuccessOf 2).2.status = 1 ∧
    (VaApiStatusChecker.new.isSuccessOf 2).2.status ≠ 2 := by
  decide

/-- Without wrap-around `++UniqueId` is the successor. -/
theorem preIncrement_of_lt (u : Nat) (h : u + 1 < quint32Mod) : preIncrement u = u + 1 := by
  unfold preIncrement
  exact Nat.mod_eq_of_lt h

/-- C8, amended. As long as the 32-bit counter does not wrap around (its value
before the sequence plus the number of operations stays below `2^32`), each
identity token issued by a sequence of `VideoFrame` constructions and `newId()`
calls is strictly greater than every token issued before it in the sequence and
than the counter value the sequence started from. -/
theorem issuedTokens_increasing (ops : List FrameOp) (p : Frames)
    (h : p.UniqueId + ops.length < quint32Mod) :
    (issuedTokens ops p).Pairwise (· < ·) ∧
    ∀ t ∈ issuedTokens ops p, p.UniqueId < t := by
  induction ops generalizing p with
  | nil => simp [issuedTokens]
  | cons op ops ih =>
    simp only [List.length_cons] at h
    have hpre : preIncrement p.UniqueId = p.UniqueId + 1 :=
      preIncrement_of_lt p.UniqueId (by omega)
    cases op with
    | construct =>
      have ih1 := ih { UniqueId := p.UniqueId + 1,
                       frames := p.frames ++ [(VideoFrame.new p.UniqueId).2] }
        (by simp only; omega)
      simp only [issuedTokens, FrameOp.run, VideoFrame.new, VideoFrame.id, hpre,
        List.singleton_append, List.pairwise_cons, List.mem_cons] at ih1 ⊢
      refine ⟨⟨fun t ht => ih1.2 t ht, ih1.1⟩, ?_⟩
      rintro t (rfl | ht)
      · omega
      · exact Nat.lt_trans (Nat.lt_succ_self _) (ih1.2 t ht)
    | newId i =>
      cases hf : p.frames[i]? with
      | none =>
        have ih1 := ih p (by omega)
        simpa [issuedTokens, FrameOp.run, hf] using ih1
      | some f =>
        have ih1 := ih { UniqueId := p.UniqueId + 1,
                         frames := p.frames.set i (VideoFrame.newId p.UniqueId f).2 }
          (by simp only; omega)
        simp only [issuedTokens, FrameOp.run, hf, VideoFrame.newId, VideoFrame.id, hpre,
          List.singleton_append, List.pairwise_cons, List.mem_cons] at ih1 ⊢
        refine ⟨⟨fun t ht => ih1.2 t ht, ih1.1⟩, ?_⟩
        rintro t (rfl | ht)
        · omega
        · exact Nat.lt_trans (Nat.lt_succ_self _) (ih1.2 t ht)

/-- Witness of C8, amended: two constructions and two `newId()` calls from
counter 0 issue the tokens 1, 2, 3, 4. -/
theorem issuedTokens_increasing_witness :
    issuedTokens [FrameOp.construct, FrameOp.construct, FrameOp.newId 0, FrameOp.newId 1]
        { UniqueId := 0, frames := [] } = [1, 2, 3, 4] ∧
    (issuedTokens [FrameOp.construct, FrameOp.construct, FrameOp.newId 0, FrameOp.newId 1]
        { UniqueId := 0, frames := [] }).Pairwise (· < ·) :=
  ⟨by decide,
   (issuedTokens_increasing
      [FrameOp.construct, FrameOp.construct, FrameOp.newId 0, FrameOp.newId 1]
      { UniqueId := 0, frames := [] } (by decide)).1⟩

/-- The tokens of a non-empty sequence: those of its first operation, then those
of the rest. -/
theorem issuedTokens_cons (op : FrameOp) (ops : List FrameOp) (p : Frames) :
    issuedTokens (op :: ops) p = (op.run p).2 ++ issuedTokens ops (op.run p).1 := by
  rw [issuedTokens]

/-- Repeated `newId()` on the first frame issues the successive counter values
modulo `2^32`. -/
theorem mem_issuedTokens_replicate (n : Nat) (p : Frames) (k : Nat)
    (hp : 0 < p.frames.length) (hk : k < n) :
    (p.UniqueId + 1 + k) % quint32Mod ∈
      issuedTokens (List.replicate n (FrameOp.newId 0)) p := by
  induction n generalizing p k with
  | zero => omega
  | succ n ih =>
    obtain ⟨f, hf⟩ : ∃ f, p.frames[0]? = some f := by
      cases hfr : p.frames with
      | nil => simp [hfr] at hp
      | cons a l => exact ⟨a, by simp⟩
    simp only [List.replicate_succ, issuedTokens, FrameOp.run, hf, VideoFrame.newId,
      VideoFrame.id, List.singleton_append, List.mem_cons]
    cases k with
    | zero => left; rfl
    | succ k =>
      right
      have h1 := ih { UniqueId := preIncrement p.UniqueId,
                      frames := p.frames.set 0 (VideoFrame.newId p.UniqueId f).2 } k
        (by simpa using hp) (by omega)
      have h2 : (preIncrement p.UniqueId + 1 + k) % quint32Mod
          = (p.UniqueId + 1 + (k + 1)) % quint32Mod := by
        unfold preIncrement quint32Mod
        omega
      simp only [h2] at h1
      exact h1

/-- C8 refuted as stated: from counter 0, one construction followed by
`2^32 - 1` calls of `newId()` on that frame issues token 1 first and token 0
later, so the issued tokens are not increasing. -/
theorem issuedTokens_wraps :
    ¬ (issuedTokens (FrameOp.construct :: List.replicate 4294967295 (FrameOp.newId 0))
        { UniqueId := 0, frames := [] }).Pairwise (· < ·) := by
  intro h
  rw [issuedTokens_cons] at h
  simp only [FrameOp.run, VideoFrame.new, VideoFrame.id, List.singleton_append,
    List.pairwise_cons] at h
  have hmem := mem_issuedTokens_replicate 4294967295
    { UniqueId := preIncrement 0,
      frames := [] ++ [(VideoFrame.new 0).2] } 4294967294 (by simp) (by omega)
  have h0 : (preIncrement 0 + 1 + 4294967294) % quint32Mod = 0 := by
    unfold preIncrement quint32Mod
    omega
  rw [h0] at hmem
  have hlt := h.1 0 hmem
  unfold preIncrement at hlt
  omega

/-- The token a redraw treats as changed is the front frame's, when it differs
from the last-acknowledged id. -/
theorem changedId_eq (s : State) :
    changedId s = if s.frame.id = s.frameId then [] else [s.frame.id] := by
  unfold changedId beforeUpdate
  by_cases h : s.frame.id = s.frameId <;> simp [h]

/-- The state after a redraw of a new frame, as far as the handoff goes. -/
theorem beforeUpdate_fields (s : State) (h : s.frame.id ≠ s.frameId) :
    (beforeUpdate s).1.frame = s.frame ∧ (beforeUpdate s).1.next = s.next ∧
    (beforeUpdate s).1.UniqueId = s.UniqueId ∧ (beforeUpdate s).1.frameId = s.frame.id := by
  simp [beforeUpdate, h]

/-- The state after `getNextFrame()`. -/
theorem getNextFrame_fields (s : State) :
    (getNextFrame s).1.frame = s.frame ∧
    (getNextFrame s).1.next.id = preIncrement s.UniqueId ∧
    (getNextFrame s).1.UniqueId = preIncrement s.UniqueId ∧
    (getNextFrame s).1.frameId = s.frameId := by
  simp [getNextFrame, VideoFrame.newId, VideoFrame.id]

/-- The state after a `next()` that swaps. -/
theorem next_fields (woken : Bool) (s : State) (h : s.frameChanged = false) :
    (next woken s).1.frame = s.next ∧ (next woken s).1.next = s.frame ∧
    (next woken s).1.UniqueId = s.UniqueId ∧ (next woken s).1.frameId = s.frameId := by
  simp [next, h, VideoFrame.swap]

/-- One increment of the counter moves it one step further from a token. -/
theorem idDistance_preIncrement (f u : Nat) (hf : f < quint32Mod) (hu : u < quint32Mod)
    (h : idDistance f u + 1 < quint32Mod) :
    idDistance f (preIncrement u) = idDistance f u + 1 ∧ preIncrement u < quint32Mod := by
  unfold idDistance preIncrement quint32Mod at *
  omega

/-- Distances add up along the counter as long as the sum stays below `2^32`. -/
theorem idDistance_add (f n t : Nat) (hf : f < quint32Mod) (hn : n < quint32Mod)
    (ht : t < quint32Mod) (h : idDistance f n + idDistance n t < quint32Mod) :
    idDistance f t = idDistance f n + idDistance n t := by
  unfold idDistance quint32Mod at *
  omega

/-- A token between `f` and `u` splits the distance from `f` to `u`. -/
theorem idDistance_between (f n u : Nat) (hf : f < quint32Mod) (hn : n < quint32Mod)
    (hu : u < quint32Mod) (h : idDistance f n ≤ idDistance f u) :
    idDistance f n + idDistance n u = idDistance f u := by
  unfold idDistance quint32Mod at *
  omega

/-- A token is at distance 0 from itself. -/
theorem idDistance_self (f : Nat) : idDistance f f = 0 := by
  unfold idDistance quint32Mod at *
  omega

/-- The tokens that later redraws treat as changed lie ahead of the front
frame's token along the counter, in strictly increasing distance, as long as
the distance from the front frame's token to the counter plus the number of
tokens still to be drawn stays below `2^32`. -/
theorem changedIds_ahead (es : List Event) :
    ∀ (s : State) (fresh : Bool),
      followsProtocol fresh es = true →
      s.frame.id < quint32Mod → s.next.id < quint32Mod → s.UniqueId < quint32Mod →
      (fresh = true → 0 < idDistance s.frame.id s.next.id ∧
          idDistance s.frame.id s.next.id ≤ idDistance s.frame.id s.UniqueId) →
      idDistance s.frame.id s.UniqueId + countGetNextFrame es < quint32Mod →
      ((changedIds es s).map (idDistance s.frame.id)).Pairwise (· < ·) ∧
      ∀ t ∈ changedIds es s, t < quint32Mod ∧
        (s.frame.id = s.frameId → 0 < idDistance s.frame.id t) ∧
        idDistance s.frame.id t ≤ idDistance s.frame.id s.UniqueId + countGetNextFrame es := by
  induction es with
  | nil =>
    intro s fresh _ _ _ _ _ _
    simp [changedIds]
  | cons e es ih =>
    intro s fresh hp hf hn hu hfresh hb
    cases e with
    | getNextFrame =>
      simp only [followsProtocol] at hp
      simp only [countGetNextFrame] at hb ⊢
      obtain ⟨e1, e2, e3, e4⟩ := getNextFrame_fields s
      obtain ⟨d1, d2⟩ := idDistance_preIncrement s.frame.id s.UniqueId hf hu (by omega)
      have h := ih (getNextFrame s).1 true hp (by rw [e1]; exact hf) (by rw [e2]; exact d2)
        (by rw [e3]; exact d2) (by intro _; rw [e1, e2, e3, d1]; omega)
        (by rw [e1, e3, d1]; omega)
      rw [e1, e3, e4, d1] at h
      simp only [changedIds, Event.run]
      refine ⟨h.1, fun t ht => ?_⟩
      obtain ⟨a, b, c⟩ := h.2 t ht
      exact ⟨a, b, by omega⟩
    | next woken =>
      simp only [followsProtocol, Bool.and_eq_true] at hp
      simp only [countGetNextFrame] at hb ⊢
      simp only [changedIds, Event.run]
      cases hc : s.frameChanged with
      | true =>
        have hs : (next woken s).1 = s := by simp [next, hc]
        rw [hs]
        exact ih s false hp.2 hf hn hu (by intro h; cases h) hb
      | false =>
        obtain ⟨e1, e2, e3, e4⟩ := next_fields woken s hc
        obtain ⟨g1, g2⟩ := hfresh hp.1
        have hsplit := idDistance_between s.frame.id s.next.id s.UniqueId hf hn hu g2
        have h := ih (next woken s).1 false hp.2 (by rw [e1]; exact hn) (by rw [e2]; exact hf)
          (by rw [e3]; exact hu) (by intro h; cases h) (by rw [e1, e3]; omega)
        rw [e1, e3, e4] at h
        have hadd : ∀ t ∈ changedIds es (next woken s).1,
            idDistance s.frame.id t = idDistance s.frame.id s.next.id + idDistance s.next.id t := by
          intro t ht
          obtain ⟨a, _, c⟩ := h.2 t ht
          exact idDistance_add s.frame.id s.next.id t hf hn a (by omega)
        refine ⟨?_, fun t ht => ?_⟩
        · rw [List.pairwise_map]
          have h1 := h.1
          rw [List.pairwise_map] at h1
          refine List.Pairwise.imp_of_mem ?_ h1
          intro a b ha hb hab
          rw [hadd a ha, hadd b hb]
          omega
        · obtain ⟨a, _, c⟩ := h.2 t ht
          rw [hadd t ht]
          exact ⟨a, fun _ => by omega, by omega⟩
    | beforeUpdate =>
      simp only [followsProtocol] at hp
      simp only [countGetNextFrame] at hb ⊢
      simp only [changedIds, changedId_eq]
      by_cases hid : s.frame.id = s.frameId
      · have hs : (beforeUpdate s).1 = s := by simp [beforeUpdate, hid]
        rw [hs]
        simpa [hid] using ih s fresh hp hf hn hu hfresh hb
      · obtain ⟨e1, e2, e3, e4⟩ := beforeUpdate_fields s hid
        have h := ih (beforeUpdate s).1 fresh hp (by rw [e1]; exact hf) (by rw [e2]; exact hn)
          (by rw [e3]; exact hu) (by rw [e1, e2, e3]; exact hfresh) (by rw [e1, e3]; exact hb)
        rw [e1, e3, e4] at h
        simp only [hid, if_false, List.singleton_append, List.map_cons, List.pairwise_cons,
          List.mem_map, List.mem_cons, idDistance_self]
        refine ⟨⟨?_, h.1⟩, ?_⟩
        · rintro d ⟨t, ht, rfl⟩
          exact (h.2 t ht).2.1 rfl
        · rintro t (rfl | ht)
          · exact ⟨hf, fun h => h.elim, by rw [idDistance_self]; omega⟩
          · obtain ⟨a, _, c⟩ := h.2 t ht
            exact ⟨a, fun h => h.elim, c⟩

/-- C5, amended. For every sequence of calls that follows the producer protocol
(each `next()` preceded by its own `getNextFrame()`), with redraws interleaved
anywhere, that draws fewer than `2^32 - 1` identity tokens, started from the
initial state whatever the counter was, the identity tokens for which
`beforeUpdate()` takes its non-no-op path are pairwise distinct. -/
theorem changedIds_nodup (u0 : Nat) (es : List Event)
    (hp : followsProtocol false es = true)
    (hc : countGetNextFrame es < 4294967295) :
    (changedIds es (State.initial u0)).Nodup := by
  have hf : (State.initial u0).frame.id < quint32Mod := by
    simp only [State.initial, VideoFrame.new, VideoFrame.id, preIncrement]
    exact Nat.mod_lt _ (by decide)
  have hu : (State.initial u0).UniqueId < quint32Mod := by
    simp only [State.initial, VideoFrame.new, preIncrement]
    exact Nat.mod_lt _ (by decide)
  have hn : (State.initial u0).next.id < quint32Mod := by
    simp only [State.initial, VideoFrame.new, VideoFrame.id, preIncrement]
    exact Nat.mod_lt _ (by decide)
  have hd : idDistance (State.initial u0).frame.id (State.initial u0).UniqueId = 1 := by
    simp only [State.initial, VideoFrame.new, VideoFrame.id, preIncrement, idDistance,
      quint32Mod]
    omega
  have h := (changedIds_ahead es (State.initial u0) false hp hf hn hu
    (by intro h; cases h) (by rw [hd]; unfold quint32Mod; omega)).1
  rw [List.pairwise_map] at h
  exact List.Pairwise.imp (fun hab heq => by rw [heq] at hab; exact Nat.lt_irrefl _ hab) h

/-- Witness of C5, amended: from counter 0, a redraw of the initial frame, three
publishes of which the second is refused, and the redraws in between treat the
tokens 1, 3 and 5 as changed, each once. -/
theorem changedIds_nodup_witness :
    changedIds [Event.beforeUpdate, Event.getNextFrame, Event.next true, Event.getNextFrame,
        Event.next true, Event.beforeUpdate, Event.getNextFrame, Event.next false,
        Event.beforeUpdate, Event.beforeUpdate]
      (State.initial 0) = [1, 3, 5] ∧
    (changedIds [Event.beforeUpdate, Event.getNextFrame, Event.next true, Event.getNextFrame,
        Event.next true, Event.beforeUpdate, Event.getNextFrame, Event.next false,
        Event.beforeUpdate, Event.beforeUpdate]
      (State.initial 0)).Nodup :=
  ⟨by decide,
   changedIds_nodup 0 [Event.beforeUpdate, Event.getNextFrame, Event.next true,
      Event.getNextFrame, Event.next true, Event.beforeUpdate, Event.getNextFrame,
      Event.next false, Event.beforeUpdate, Event.beforeUpdate] (by decide) (by decide)⟩

/-- Repeated publish-and-redraw cycles follow the producer protocol. -/
theorem followsProtocol_cycles (n : Nat) (fresh : Bool) :
    followsProtocol fresh (cycles n) = true := by
  induction n generalizing fresh with
  | zero => simp [cycles, followsProtocol]
  | succ n ih => simp [cycles, publishAndRedraw, followsProtocol, ih]

/-- Each publish-and-redraw cycle draws one identity token. -/
theorem countGetNextFrame_cycles (n : Nat) : countGetNextFrame (cycles n) = n := by
  induction n with
  | zero => simp [cycles, countGetNextFrame]
  | succ n ih => simp [cycles, publishAndRedraw, countGetNextFrame, ih]

/-- One publish-and-redraw cycle, started with no publish pending and a
last-acknowledged id other than the next counter value: the redraw treats the
newly drawn token as changed and acknowledges it. -/
theorem changedIds_cycle (s : State) (es : List Event) (h1 : s.frameChanged = false)
    (h2 : s.frameId ≠ preIncrement s.UniqueId) :
    changedIds (publishAndRedraw ++ es) s
      = preIncrement s.UniqueId :: changedIds es (runEvents publishAndRedraw s) ∧
    (runEvents publishAndRedraw s).frameChanged = false ∧
    (runEvents publishAndRedraw s).UniqueId = preIncrement s.UniqueId ∧
    (runEvents publishAndRedraw s).frameId = preIncrement s.UniqueId := by
  have h3 : preIncrement s.UniqueId ≠ s.frameId := fun h => h2 h.symm
  simp [publishAndRedraw, changedIds, Event.run, runEvents, getNextFrame, next, beforeUpdate,
    changedId_eq, VideoFrame.newId, VideoFrame.swap, VideoFrame.id, h1, h3]

/-- Repeated publish-and-redraw cycles treat the successive counter values
modulo `2^32` as changed frames. -/
theorem mem_changedIds_cycles (n : Nat) (s : State) (k : Nat)
    (h1 : s.frameChanged = false) (h2 : s.frameId ≠ preIncrement s.UniqueId) (hk : k < n) :
    (s.UniqueId + 1 + k) % quint32Mod ∈ changedIds (cycles n) s := by
  induction n generalizing s k with
  | zero => omega
  | succ n ih =>
    obtain ⟨c1, c2, c3, c4⟩ := changedIds_cycle s (cycles n) h1 h2
    rw [cycles, c1, List.mem_cons]
    cases k with
    | zero => left; rfl
    | succ k =>
      right
      have h := ih (runEvents publishAndRedraw s) k c2
        (by rw [c3, c4]; unfold preIncrement quint32Mod; omega) (by omega)
      have e : ((runEvents publishAndRedraw s).UniqueId + 1 + k) % quint32Mod
          = (s.UniqueId + 1 + (k + 1)) % quint32Mod := by
        rw [c3]
        unfold preIncrement quint32Mod
        omega
      rw [e] at h
      exact h

/-- A redraw draws no identity token. -/
theorem countGetNextFrame_beforeUpdate_cons (es : List Event) :
    countGetNextFrame (Event.beforeUpdate :: es) = countGetNextFrame es := by
  simp [countGetNextFrame]

/-- The tokens of a sequence that starts with a redraw. -/
theorem changedIds_beforeUpdate_cons (es : List Event) (s : State) :
    changedIds (Event.beforeUpdate :: es) s
      = changedId s ++ changedIds es (beforeUpdate s).1 := by
  rw [changedIds]

/-- C5 refuted as stated: from counter 0, a redraw of the initial frame (token 1)
followed by `2^32 - 1` publish-and-redraw cycles follows the protocol, draws
`2^32 - 1` tokens, and its last redraw treats token 1 as changed again. -/
theorem changedIds_repeat :
    followsProtocol false (Event.beforeUpdate :: cycles 4294967295) = true ∧
    countGetNextFrame (Event.beforeUpdate :: cycles 4294967295) = 4294967295 ∧
    ¬ (changedIds (Event.beforeUpdate :: cycles 4294967295) (State.initial 0)).Nodup := by
  refine ⟨?_, ?_, ?_⟩
  · rw [followsProtocol]
    exact followsProtocol_cycles 4294967295 false
  · rw [countGetNextFrame_beforeUpdate_cons]
    exact countGetNextFrame_cycles 4294967295
  · intro h
    rw [changedIds_beforeUpdate_cons] at h
    have hc : changedId (State.initial 0) = [1] := by decide
    rw [hc, List.singleton_append, List.nodup_cons] at h
    have hmem := mem_changedIds_cycles 4294967295 (beforeUpdate (State.initial 0)).1 4294967294
      (by decide) (by decide) (by omega)
    have e : ((beforeUpdate (State.initial 0)).1.UniqueId + 1 + 4294967294) % quint32Mod = 1 := by
      decide
    rw [e] at hmem
    exact h.1 hmem

/-- The waits of two lists of calls, one after the other. -/
theorem waits_append (a b : List Effect) : waits (a ++ b) = waits a ++ waits b := by
  simp [waits]

/-- A redraw never waits on the condition variable. -/
theorem waits_beforeUpdate (s : State) : waits (beforeUpdate s).2 = [] := by
  have hup : ∀ (f : VideoFormat) (fr : VideoFrame), waits (uploadPlanes f fr) = [] := by
    intro f fr
    unfold uploadPlanes waits
    split <;> simp
  unfold beforeUpdate
  by_cases hid : s.frame.id = s.frameId
  · simp [hid, waits]
  · simp only [hid, if_false, waits_append]
    have e1 : waits (if (formatAfter s).isEmpty = false
        then uploadPlanes (formatAfter s) s.frame else []) = [] := by
      split
      · exact hup _ _
      · rfl
    rw [e1]
    by_cases h1 : s.format ≠ s.frame.format <;>
      by_cases h2 : s.shaderType ≠ (formatAfter s).type <;>
      simp [h1, h2, waits]

/-- With the quit flag set, `next()` does not wait, whatever the state. -/
theorem waits_next_of_quit (woken : Bool) (s : State) (h : s.quit = true) :
    waits (next woken s).2 = [] := by
  unfold next
  by_cases hc : s.frameChanged = false
  · simp [hc, nextWait, h, waits]
  · simp [hc, waits]

/-- No call clears the quit flag. -/
theorem Call.run_quit (c : Call) (s : State) (h : s.quit = true) : (c.run s).1.quit = true := by
  cases c with
  | getNextFrame => simpa [Call.run, Bomi.getNextFrame] using h
  | next woken =>
    by_cases hc : s.frameChanged = false <;> simp [Call.run, Bomi.next, hc, h]
  | beforeUpdate =>
    by_cases hid : s.frame.id = s.frameId <;> simp [Call.run, Bomi.beforeUpdate, hid, h]
  | quit => simp [Call.run, Bomi.quit]

/-- With the quit flag set, no single call waits. -/
theorem Call.run_waits_of_quit (c : Call) (s : State) (h : s.quit = true) :
    waits (c.run s).2 = [] := by
  cases c with
  | getNextFrame => simp [Call.run, Bomi.getNextFrame, waits]
  | next woken => exact waits_next_of_quit woken s h
  | beforeUpdate => exact waits_beforeUpdate s
  | quit => simp [Call.run, Bomi.quit, waits]

/-- Once the quit flag is set it stays set through every sequence of calls, and
no call of the sequence waits. -/
theorem runCalls_of_quit (cs : List Call) (s : State) (h : s.quit = true) :
    (runCalls cs s).quit = true ∧ waits (traceCalls cs s) = [] := by
  induction cs generalizing s with
  | nil => simp [runCalls, traceCalls, waits, h]
  | cons c cs ih =>
    have h1 := ih (c.run s).1 (Call.run_quit c s h)
    simp only [runCalls, traceCalls, waits_append, Call.run_waits_of_quit c s h, h1.2,
      List.append_nil]
    exact ⟨h1.1, trivial⟩

/-- C11. `quit()` sets the quit flag, wakes the waiting producer, and leaves both
slots, `frameChanged` and the last-acknowledged id as they were.  After it,
through every sequence of later calls (`getNextFrame()`, `next()`,
`beforeUpdate()`, `quit()`) the flag stays set and no call waits on the
condition variable; and a `next()` made after any such sequence does not wait
either, while it still swaps the slots and sets `frameChanged` when no publish
is pending. -/
theorem quit_never_waits_again (s : State) (cs : List Call) (woken : Bool) :
    (quit s).1.quit = true ∧
    Effect.wakeAll ∈ (quit s).2 ∧
    (quit s).1.frame = s.frame ∧ (quit s).1.next = s.next ∧
    (quit s).1.frameChanged = s.frameChanged ∧ (quit s).1.frameId = s.frameId ∧
    (runCalls cs (quit s).1).quit = true ∧
    waits (traceCalls cs (quit s).1) = [] ∧
    waits (next woken (runCalls cs (quit s).1)).2 = [] ∧
    ((runCalls cs (quit s).1).frameChanged = false →
      (next woken (runCalls cs (quit s).1)).1.frameChanged = true ∧
      (next woken (runCalls cs (quit s).1)).1.frame = (runCalls cs (quit s).1).next ∧
      (next woken (runCalls cs (quit s).1)).1.next = (runCalls cs (quit s).1).frame) := by
  have hq : (quit s).1.quit = true := by simp [quit]
  obtain ⟨h1, h2⟩ := runCalls_of_quit cs (quit s).1 hq
  refine ⟨hq, by simp [quit], by simp [quit], by simp [quit], by simp [quit], by simp [quit],
    h1, h2, waits_next_of_quit woken _ h1, ?_⟩
  intro hc
  simp [next, hc, VideoFrame.swap]

/-- Instance of C11 on `sampleIdle`: without `quit()` a publish waits 10 seconds
for the acknowledgement; after `quit()` the same publish, and a later one that
follows a redraw, swap the slots and return without waiting. -/
theorem quit_never_waits_again_witness :
    waits (next false sampleIdle).2 = [Effect.wait 10000] ∧
    waits (next false (quit sampleIdle).1).2 = [] ∧
    (next false (quit sampleIdle).1).1.frame = sampleIdle.next ∧
    waits (traceCalls [Call.next true, Call.beforeUpdate, Call.getNextFrame, Call.next false]
      (quit sampleIdle).1) = [] :=
  ⟨by decide,
   (quit_never_waits_again sampleIdle [] false).2.2.2.2.2.2.2.2.1,
   ((quit_never_waits_again sampleIdle [] false).2.2.2.2.2.2.2.2.2 rfl).2.1,
   (quit_never_waits_again sampleIdle
      [Call.next true, Call.beforeUpdate, Call.getNextFrame, Call.next false]
      false).2.2.2.2.2.2.2.1⟩

/-- The upload switch makes no `resetNode()` call. -/
theorem resetNode_not_mem_uploadPlanes (f : VideoFormat) (fr : VideoFrame) :
    Effect.resetNode ∉ uploadPlanes f fr := by
  unfold uploadPlanes
  split <;> simp

/-- The uploads of a redraw of a new frame whose format is empty: none. -/
theorem texUploads_beforeUpdate_empty (s : State) (hid : s.frame.id ≠ s.frameId)
    (he : s.frame.format.isEmpty = true) :
    texUploads (beforeUpdate s).2 = [] := by
  simp only [beforeUpdate, hid, if_false, formatAfter_eq, he]
  unfold texUploads
  by_cases h1 : s.format ≠ s.frame.format <;> by_cases h2 : s.shaderType ≠ s.frame.format.type <;>
    simp [h1, h2]

/-- When `beforeUpdate` requests a texture reset on a redraw of a new frame:
exactly when the front frame's format differs from the stored one or its tag
differs from the shader's. -/
theorem resetNode_mem_beforeUpdate (s : State) (hid : s.frame.id ≠ s.frameId) :
    Effect.resetNode ∈ (beforeUpdate s).2 ↔
      (s.format ≠ s.frame.format ∨ s.shaderType ≠ s.frame.format.type) := by
  have hup := resetNode_not_mem_uploadPlanes s.frame.format s.frame
  simp only [beforeUpdate, hid, if_false, formatAfter_eq]
  by_cases h1 : s.format ≠ s.frame.format <;> by_cases h2 : s.shaderType ≠ s.frame.format.type <;>
    by_cases h3 : s.frame.format.isEmpty = false <;>
    simp [h1, h2, h3, hup]

/-- C12. On every redraw of a new frame the stored format becomes the front
frame's format; the uploads are those the switch selects for the front frame's
format and tag (none when that format is empty), so they do not depend on the
previously stored format or shader tag; `resetNode()` is requested exactly when
the front frame's format differs from the previously stored format or its tag
differs from the tag recorded by `fragmentShader()`; and the shader rebuilt
afterwards is recorded for the front frame's tag. -/
theorem beforeUpdate_reselects_layout (s : State) (hid : s.frame.id ≠ s.frameId) :
    (beforeUpdate s).1.format = s.frame.format ∧
    texUploads (beforeUpdate s).2 =
      (if s.frame.format.isEmpty = false then uploadPlanes s.frame.format s.frame else []) ∧
    (∀ s2 : State, s2.frame = s.frame → s2.frame.id ≠ s2.frameId →
      texUploads (beforeUpdate s2).2 = texUploads (beforeUpdate s).2) ∧
    ((s.format ≠ s.frame.format ∨ s.shaderType ≠ s.frame.format.type) →
      Effect.resetNode ∈ (beforeUpdate s).2) ∧
    (Effect.resetNode ∈ (beforeUpdate s).2 →
      (s.format ≠ s.frame.format ∨ s.shaderType ≠ s.frame.format.type)) ∧
    (fragmentShader (beforeUpdate s).1).shaderType = s.frame.format.type := by
  have hall : ∀ t : State, t.frame.id ≠ t.frameId →
      texUploads (beforeUpdate t).2 =
        (if t.frame.format.isEmpty = false then uploadPlanes t.frame.format t.frame
         else []) := by
    intro t ht
    by_cases hne : t.frame.format.isEmpty = false
    · rw [texUploads_beforeUpdate t ht hne, if_pos hne]
    · rw [texUploads_beforeUpdate_empty t ht (by simpa using hne), if_neg hne]
  have hfmt : (beforeUpdate s).1.format = s.frame.format := by
    simp [beforeUpdate, hid, formatAfter_eq]
  refine ⟨hfmt, hall s hid, ?_, (resetNode_mem_beforeUpdate s hid).mpr,
    (resetNode_mem_beforeUpdate s hid).mp, ?_⟩
  · intro s2 hfr h2
    rw [hall s2 h2, hall s hid, hfr]
  · simp [fragmentShader, hfmt]

/-- Witness of C12 on `sampleRetagged`: the stored format and shader are planar
I420 at 640x480 and the new front frame is semi-planar NV12 of the same
dimensions.  The redraw stores the NV12 format, uploads the two NV12 textures
(not the three planar ones) and requests a texture reset. -/
theorem beforeUpdate_reselects_layout_witness :
    sampleRetagged.frame.id ≠ sampleRetagged.frameId ∧
    sampleRetagged.format.byteWidth 0 = sampleRetagged.frame.format.byteWidth 0 ∧
    sampleRetagged.format.byteHeight 0 = sampleRetagged.frame.format.byteHeight 0 ∧
    (beforeUpdate sampleRetagged).1.format.type = VideoFormatType.NV12 ∧
    texUploads (beforeUpdate sampleRetagged).2 =
      [Effect.setTex 0 GLenum.GL_LUMINANCE 640 480 [1],
       Effect.setTex 1 GLenum.GL_LUMINANCE_ALPHA 320 240 [2]] ∧
    Effect.resetNode ∈ (beforeUpdate sampleRetagged).2 :=
  ⟨by decide, rfl, rfl,
   congrArg VideoFormat.type (beforeUpdate_reselects_layout sampleRetagged (by decide)).1,
   (beforeUpdate_reselects_layout sampleRetagged (by decide)).2.1,
   (beforeUpdate_reselects_layout sampleRetagged (by decide)).2.2.2.1 (Or.inl (by decide))⟩

end Bomi
